import Mathlib

/-!
Verification of the py-teleco-daisy client core: a shallow embedding of the
command records, the device registry, the device control translations, the
command dispatcher and the acknowledgment poller of
src/teleco_daisy/__init__.py, together with theorems settling the
specification claims about them.

Network interaction is modelled by scripting: every function that in the
source performs an HTTP post takes the scripted response (or a list of
scripted responses) as an extra argument and returns, alongside its result,
the payload it would have posted.
-/

namespace TelecoDaisy

/-- One vendor command record, modelling the Python dict entries placed in a
commandsList. A field set to none models an absent key; lowlevelCommand is
doubly optional because the source sometimes places an explicit JSON null
there (some none). -/
structure CommandRecord where
  deviceCode : Option String := none
  idInstallationDevice : Option Int := none
  commandAction : Option String := none
  commandId : Option Int := none
  commandParam : Option String := none
  lowlevelCommand : Option (Option String) := none
  deriving DecidableEq

/-- Python dict union a | b restricted to command-record keys: keys of b
override keys of a, keys present in only one side are kept. -/
def CommandRecord.merge (a b : CommandRecord) : CommandRecord where
  deviceCode := b.deviceCode <|> a.deviceCode
  idInstallationDevice := b.idInstallationDevice <|> a.idInstallationDevice
  commandAction := b.commandAction <|> a.commandAction
  commandId := b.commandId <|> a.commandId
  commandParam := b.commandParam <|> a.commandParam
  lowlevelCommand := b.lowlevelCommand <|> a.lowlevelCommand

/-- The device fields the control methods read (DaisyBaseDevice lines 38-50). -/
structure DeviceData where
  deviceIndex : Int
  idInstallationDevice : Int
  idDevicetype : Int
  idDevicemodel : Int
  deriving DecidableEq

/-- The installation fields the dispatcher reads (DaisyInstallation lines
21-32): the numeric id and the vendor install code. -/
structure DaisyInstallation where
  idInstallation : Int
  instCode : String
  deriving DecidableEq

/-- One scripted response of the getackcommand endpoint. -/
structure AckResponse where
  MessageID : String
  MessageText : String
  deriving DecidableEq

/-- How a run of the ack poller ends: the AssertionError raise of line 642,
a returned success dict (lines 646-648), or the script running out (the
real code would block on the network for the next response). -/
inductive AckOutcome where
  | assertionError
  | result (success : Bool)
  | scriptEnded
  deriving DecidableEq

/-- Observable trace of one run of the ack poller: how many getackcommand
queries it issued, the list of sleeps it performed between consecutive
queries (in milliseconds), and how it ended. -/
structure AckRun where
  queries : Nat
  sleeps : List Nat
  outcome : AckOutcome
  deriving DecidableEq

/-- TelecoDaisy._get_ack lines 632-648, run against a scripted list of
responses, one consumed per query: a response whose MessageID is not WS-300
raises AssertionError; MessageText RCV sleeps 0.5 s (500 ms) and requeries;
PROC returns success True; anything else returns success False. -/
def get_ack : List AckResponse → AckRun
  | [] => { queries := 0, sleeps := [], outcome := .scriptEnded }
  | r :: rest =>
    if r.MessageID ≠ "WS-300" then
      { queries := 1, sleeps := [], outcome := .assertionError }
    else if r.MessageText = "RCV" then
      let run := get_ack rest
      { queries := run.queries + 1, sleeps := 500 :: run.sleeps, outcome := run.outcome }
    else if r.MessageText = "PROC" then
      { queries := 1, sleeps := [], outcome := .result true }
    else
      { queries := 1, sleeps := [], outcome := .result false }

/-- The open, stop and close keys of an osc_map (DaisyCover lines 100-138). -/
inductive OpenStopClose where
  | osc_open
  | osc_stop
  | osc_close
  deriving DecidableEq

/-- DaisySlatsCover.osc_map lines 144-148. -/
def slats_osc_map : OpenStopClose → CommandRecord
  | .osc_open =>
    { commandId := some 94, commandParam := some "OPEN", lowlevelCommand := some (some "CH4") }
  | .osc_stop =>
    { commandId := some 95, commandParam := some "STOP", lowlevelCommand := some (some "CH7") }
  | .osc_close =>
    { commandId := some 96, commandParam := some "CLOSE", lowlevelCommand := some (some "CH1") }

/-- DaisyCover._open_stop_close lines 127-138: the single-record commandsList
handed to feed_the_commands, the base dict merged with the osc_map entry. -/
def cover_open_stop_close (dev : DeviceData) (osc_map : OpenStopClose → CommandRecord)
    (c : OpenStopClose) : List CommandRecord :=
  [CommandRecord.merge
    { deviceCode := some (toString dev.deviceIndex),
      idInstallationDevice := some dev.idInstallationDevice,
      commandAction := some "OPEN_STOP_CLOSE" }
    (osc_map c)]

/-- DaisyCover.close_cover lines 124-125 as inherited by DaisySlatsCover:
the commandsList submitted on close. -/
def slats_close_cover (dev : DeviceData) : List CommandRecord :=
  cover_open_stop_close dev slats_osc_map OpenStopClose.osc_close

/-- The Python format spec %03d for 0 ≤ n ≤ 999, which is the whole range
the color code uses (brightness at most 100, channels at most 255): exactly
three decimal digits, zero padded, as a character list. -/
def pad3 (n : Nat) : List Char :=
  [Char.ofNat (48 + n / 100), Char.ofNat (48 + n / 10 % 10), Char.ofNat (48 + n % 10)]

/-- The color f-string of DaisyRGBLight.set_rgb_and_brightness line 257,
A then brightness then R, G, B each followed by a channel, all in %03d. -/
def encodeColor (a r g b : Nat) : List Char :=
  ['A'] ++ pad3 a ++ ['R'] ++ pad3 r ++ ['G'] ++ pad3 g ++ ['B'] ++ pad3 b

/-- Python int() applied to a nonempty string of decimal digits
(as in update_state lines 241-242). -/
def pyInt (s : List Char) : Nat :=
  s.foldl (fun a c => a * 10 + (c.toNat - 48)) 0

/-- Python string slice val i to j (characters i up to j exclusive). -/
def pySlice (s : List Char) (i j : Nat) : List Char :=
  (s.drop i).take (j - i)

/-- The COLOR status parsing rule of DaisyRGBLight.update_state lines
240-242: brightness from characters 1 to 4, the three channels from 5 to 8,
9 to 12 and 13 to 16. -/
def decodeColor (val : List Char) : Nat × Nat × Nat × Nat :=
  (pyInt (pySlice val 1 4),
   pyInt (pySlice val 5 8),
   pyInt (pySlice val 9 12),
   pyInt (pySlice val 13 16))

/-- Python x or d for an optional int, as in the expression
self.brightness or 0 (line 249): None and 0 are falsy. -/
def pyOrInt (x : Option Int) (d : Int) : Int :=
  match x with
  | none => d
  | some v => if v = 0 then d else v

/-- Python x or d for an optional rgb triple, as in the expression
self.rgb or (255, 255, 255) (line 253): a nonempty tuple is always truthy,
so only None falls back to the default. -/
def pyOrRgb (x : Option (Int × Int × Int)) (d : Int × Int × Int) : Int × Int × Int :=
  x.getD d

/-- The COLOR record built by set_rgb_and_brightness lines 259-271 once
validation has passed (the ranges guarantee the Int.toNat casts are exact). -/
def rgbColorRecord (dev : DeviceData) (b r g bl : Int) : CommandRecord where
  commandAction := some "COLOR"
  commandId := some 137
  commandParam := some (encodeColor b.toNat r.toNat g.toNat bl.toNat).asString
  deviceCode := some (toString dev.deviceIndex)
  idInstallationDevice := some dev.idInstallationDevice
  lowlevelCommand := some none

/-- DaisyRGBLight.set_rgb_and_brightness lines 245-271, modelled as the
commandsList handed to feed_the_commands, or the ValueError message raised
before any network call. The cached state fields self.brightness and
self.rgb are passed explicitly. -/
def set_rgb_and_brightness (dev : DeviceData) (self_brightness : Option Int)
    (self_rgb : Option (Int × Int × Int)) (rgb : Option (Int × Int × Int))
    (brightness : Option Int) : Except String (List CommandRecord) :=
  let b := match brightness with
    | none => pyOrInt self_brightness 0
    | some v => v
  if 0 > b ∨ b > 100 then Except.error "Brightness must be between 0 and 100"
  else
    let c := match rgb with
      | none => pyOrRgb self_rgb (255, 255, 255)
      | some v => v
    if c.1 < 0 ∨ c.1 > 255 ∨ c.2.1 < 0 ∨ c.2.1 > 255 ∨ c.2.2 < 0 ∨ c.2.2 > 255 then
      Except.error "Color must be between 0 and 255"
    else
      Except.ok [rgbColorRecord dev b c.1 c.2.1 c.2.2]

/-- True exactly when the call raised a ValueError (modelled as the error
branch of the Except). -/
def raisesValueError : Except String (List CommandRecord) → Bool
  | .error _ => true
  | .ok _ => false

/-- The brightness_map of a DaisyWhite4LevelLight: one command fragment per
quantized band, keyed 25, 50, 75 and 100 (line 317). -/
structure BrightnessMap where
  band25 : CommandRecord
  band50 : CommandRecord
  band75 : CommandRecord
  band100 : CommandRecord
  deriving DecidableEq

/-- The brightness_map injected by create_specific_device for idDevicetype
21, idDevicemodel 34 (lines 447-468). -/
def brightnessMap34 : BrightnessMap where
  band25 := { commandParam := some "LEV1", commandId := some 141, lowlevelCommand := some (some "CH4") }
  band50 := { commandParam := some "LEV2", commandId := some 142, lowlevelCommand := some (some "CH3") }
  band75 := { commandParam := some "LEV3", commandId := some 143, lowlevelCommand := some (some "CH2") }
  band100 := { commandParam := some "LEV4", commandId := some 144, lowlevelCommand := some (some "CH1") }

/-- The brightness_map injected by create_specific_device for idDevicetype
21, idDevicemodel 17 (lines 471-480). -/
def brightnessMap17 : BrightnessMap where
  band25 := { commandParam := some "LEV1", commandId := some 42, lowlevelCommand := some (some "CH4") }
  band50 := { commandParam := some "LEV2", commandId := some 43, lowlevelCommand := some (some "CH3") }
  band75 := { commandParam := some "LEV3", commandId := some 44, lowlevelCommand := some (some "CH2") }
  band100 := { commandParam := some "LEV4", commandId := some 45, lowlevelCommand := some (some "CH1") }

/-- DaisyLight._turn_on lines 203-215: the POWER ON base dict merged with
the caller-specific params, as the single-record commandsList. -/
def light_turn_on (dev : DeviceData) (specific : CommandRecord) : List CommandRecord :=
  [CommandRecord.merge
    { commandAction := some "POWER", commandParam := some "ON",
      deviceCode := some (toString dev.deviceIndex),
      idInstallationDevice := some dev.idInstallationDevice }
    specific]

/-- DaisyLight._turn_off lines 217-230: like _turn_on but with commandParam
OFF and an explicit null lowlevelCommand in the base dict. -/
def light_turn_off (dev : DeviceData) (specific : CommandRecord) : List CommandRecord :=
  [CommandRecord.merge
    { commandAction := some "POWER", commandParam := some "OFF",
      deviceCode := some (toString dev.deviceIndex),
      idInstallationDevice := some dev.idInstallationDevice,
      lowlevelCommand := some none }
    specific]

/-- DaisyWhite4LevelLight.turn_off lines 357-365. Note that the source, in
the idDevicemodel 34 branch (line 362), calls _turn_on, not _turn_off. -/
def white4_turn_off (dev : DeviceData) : List CommandRecord :=
  if dev.idDevicetype = 21 ∧ dev.idDevicemodel = 17 then
    light_turn_off dev { commandId := some 41, lowlevelCommand := some (some "CH8") }
  else if dev.idDevicetype = 21 ∧ dev.idDevicemodel = 34 then
    light_turn_on dev { commandId := some 147, lowlevelCommand := some (some "CH8") }
  else
    light_turn_off dev { commandId := some 147, lowlevelCommand := some (some "CH8") }

/-- DaisyWhite4LevelLight.set_brightness lines 319-346: validates the range,
dispatches brightness 0 to turn_off, otherwise picks the band entry of the
brightness_map and submits one LEVEL command merged from it. -/
def white4_set_brightness (dev : DeviceData) (bmap : BrightnessMap)
    (self_brightness : Option Int) (brightness : Option Int) :
    Except String (List CommandRecord) :=
  let b := match brightness with
    | none => pyOrInt self_brightness 0
    | some v => v
  if 0 > b ∨ b > 100 then Except.error "Brightness must be between 0 and 100"
  else if b = 0 then Except.ok (white4_turn_off dev)
  else
    let vals :=
      if 1 ≤ b ∧ b ≤ 37 then bmap.band25
      else if 38 ≤ b ∧ b ≤ 62 then bmap.band50
      else if 63 ≤ b ∧ b ≤ 87 then bmap.band75
      else bmap.band100
    Except.ok
      [CommandRecord.merge
        { commandAction := some "LEVEL",
          deviceCode := some (toString dev.deviceIndex),
          idInstallationDevice := some dev.idInstallationDevice }
        vals]

/-- The merged LEVEL record submitted for one brightness band. -/
def white4LevelRecord (dev : DeviceData) (commandId : Int) (commandParam llc : String) :
    CommandRecord where
  commandAction := some "LEVEL"
  deviceCode := some (toString dev.deviceIndex)
  idInstallationDevice := some dev.idInstallationDevice
  commandId := some commandId
  commandParam := some commandParam
  lowlevelCommand := some (some llc)

/-- The concrete device classes of the source that create_specific_device
can be asked about. DaisyWhiteLight and DaisyAwningsCover exist as classes
but the registry cases returning them are commented out (lines 490-496). -/
inductive SpecificDevice where
  | rgbLight
  | slatsCover
  | white4LevelLight (brightness_map : BrightnessMap)
  | heater4CH
  | shadeCover
  | whiteLight
  | awningsCover
  | generic
  deriving DecidableEq

/-- create_specific_device lines 437-498: exact (idDevicetype,
idDevicemodel) match against the fixed table, everything else resolving to
the plain DaisyDevice. The two type-only fallback cases of the source
(types 21 and 25 to DaisyWhiteLight, type 22 to DaisyAwningsCover) are
commented out there and therefore absent here. -/
def create_specific_device (idDevicetype idDevicemodel : Int) : SpecificDevice :=
  if idDevicetype = 23 ∧ idDevicemodel = 32 then .rgbLight
  else if idDevicetype = 24 ∧ idDevicemodel = 27 then .slatsCover
  else if idDevicetype = 21 ∧ idDevicemodel = 34 then .white4LevelLight brightnessMap34
  else if idDevicetype = 21 ∧ idDevicemodel = 17 then .white4LevelLight brightnessMap17
  else if idDevicetype = 21 ∧ idDevicemodel = 20 then .heater4CH
  else if idDevicetype = 22 ∧ idDevicemodel = 25 then .shadeCover
  else .generic

/-- Whether the resolved class defines any control operation beyond the
status-refresh update_state method. The generic fallback is the plain
DaisyDevice class, which defines only update_state; every other class adds
open, stop, close, turn on, turn off, level or color controls. -/
def has_control_operations : SpecificDevice → Bool
  | .generic => false
  | _ => true

/-- One scripted response of the feedthecommands endpoint. -/
structure FeedResponse where
  MessageID : String
  ActionReference : String
  deriving DecidableEq

/-- The JSON body posted to feedthecommands (lines 615-623). -/
structure FeedPayload where
  commandsList : List CommandRecord
  idInstallation : String
  idScenario : Int
  isScenario : Bool
  deriving DecidableEq

/-- How feed_the_commands ends: the raise of line 625 carrying the raw
response, the early success None dict of line 628, or delegation to the ack
poller (line 630). -/
inductive FeedResult where
  | raised (raw : FeedResponse)
  | successNone
  | ackDelegated (run : AckRun)
  deriving DecidableEq

/-- TelecoDaisy.feed_the_commands lines 609-630 against a scripted
feedthecommands response and a scripted ack sequence: returns the payload
posted, the outcome, and the number of getackcommand queries issued. -/
def feed_the_commands (installation : DaisyInstallation)
    (commandsList : List CommandRecord) (ignore_ack : Bool)
    (resp : FeedResponse) (ackScript : List AckResponse) :
    FeedPayload × FeedResult × Nat :=
  let payload : FeedPayload :=
    { commandsList := commandsList, idInstallation := installation.instCode,
      idScenario := 0, isScenario := false }
  if resp.MessageID ≠ "WS-000" then (payload, .raised resp, 0)
  else if ignore_ack then (payload, .successNone, 0)
  else
    let run := get_ack ackScript
    (payload, .ackDelegated run, run.queries)

/-- The session fields of the TelecoDaisy client (lines 502-503), both None
on a client that has never logged in. -/
structure SessionState where
  idAccount : Option Int
  idSession : Option String
  deriving DecidableEq

/-- The valRisultato object of a successful account-login response. -/
structure LoginValRisultato where
  idAccount : Int
  idSession : String
  deriving DecidableEq

/-- One scripted response of the account-login endpoint. -/
structure LoginResponse where
  codEsito : String
  valRisultato : LoginValRisultato
  deriving DecidableEq

/-- TelecoDaisy.login lines 531-538, through the unauth path of _post lines
518-529, against a scripted response: returns the session state after the
call together with the exception raised, if any; the exception carries the
raw response. The raise in _post happens before login assigns either field,
so on failure the state argument is returned untouched. -/
def login (st : SessionState) (resp : LoginResponse) : SessionState × Option LoginResponse :=
  if resp.codEsito ≠ "S" then (st, some resp)
  else ({ idAccount := some resp.valRisultato.idAccount,
          idSession := some resp.valRisultato.idSession }, none)

theorem digit_toNat : ∀ d < 10, (Char.ofNat (48 + d)).toNat = 48 + d := by decide

theorem pyInt_pad3 (n : Nat) (h : n < 1000) : pyInt (pad3 n) = n := by
  have h1 := digit_toNat (n / 100) (by omega)
  have h2 := digit_toNat (n / 10 % 10) (by omega)
  have h3 := digit_toNat (n % 10) (by omega)
  simp only [pyInt, pad3, List.foldl, h1, h2, h3]
  omega

theorem decodeColor_encodeColor (a r g b : Nat)
    (ha : a < 1000) (hr : r < 1000) (hg : g < 1000) (hb : b < 1000) :
    decodeColor (encodeColor a r g b) = (a, r, g, b) := by
  have e : decodeColor (encodeColor a r g b) =
      (pyInt (pad3 a), pyInt (pad3 r), pyInt (pad3 g), pyInt (pad3 b)) := rfl
  rw [e, pyInt_pad3 a ha, pyInt_pad3 r hr, pyInt_pad3 g hg, pyInt_pad3 b hb]

/-- C1: against any scripted sequence of WS-300 ack responses, message texts
RCV, RCV, PROC make the poller issue exactly 3 queries with two 500 ms
sleeps between them and return success True; message texts RCV then any
text that is neither RCV nor PROC make it return success False after
exactly 2 queries, regardless of any further scripted responses. -/
theorem get_ack_scripted_runs :
    (∀ (r1 r2 r3 : AckResponse) (rest : List AckResponse),
      r1.MessageID = "WS-300" → r2.MessageID = "WS-300" → r3.MessageID = "WS-300" →
      r1.MessageText = "RCV" → r2.MessageText = "RCV" → r3.MessageText = "PROC" →
      get_ack (r1 :: r2 :: r3 :: rest) =
        { queries := 3, sleeps := [500, 500], outcome := .result true }) ∧
    (∀ (r1 r2 : AckResponse) (rest : List AckResponse),
      r1.MessageID = "WS-300" → r2.MessageID = "WS-300" →
      r1.MessageText = "RCV" → r2.MessageText ≠ "RCV" → r2.MessageText ≠ "PROC" →
      get_ack (r1 :: r2 :: rest) =
        { queries := 2, sleeps := [500], outcome := .result false }) := by
  constructor
  · intro r1 r2 r3 rest h1 h2 h3 t1 t2 t3
    simp [get_ack, h1, h2, h3, t1, t2, t3]
  · intro r1 r2 rest h1 h2 t1 t2 t3
    simp [get_ack, h1, h2, t1, t2, t3]

/-- Witness for C1 at two concrete scripts. -/
theorem get_ack_scripted_runs_witness :
    get_ack [⟨"WS-300", "RCV"⟩, ⟨"WS-300", "RCV"⟩, ⟨"WS-300", "PROC"⟩] =
      { queries := 3, sleeps := [500, 500], outcome := .result true } ∧
    get_ack [⟨"WS-300", "RCV"⟩, ⟨"WS-300", "FOO"⟩] =
      { queries := 2, sleeps := [500], outcome := .result false } :=
  ⟨get_ack_scripted_runs.1 ⟨"WS-300", "RCV"⟩ ⟨"WS-300", "RCV"⟩ ⟨"WS-300", "PROC"⟩ []
      rfl rfl rfl rfl rfl rfl,
   get_ack_scripted_runs.2 ⟨"WS-300", "RCV"⟩ ⟨"WS-300", "FOO"⟩ []
      rfl rfl rfl (by decide) (by decide)⟩

/-- C8: for every slat cover device, close submits exactly one command
record, with commandAction OPEN_STOP_CLOSE, commandId 96, commandParam
CLOSE and lowlevelCommand CH1. -/
theorem slats_close_cover_record (dev : DeviceData) :
    slats_close_cover dev =
      [{ deviceCode := some (toString dev.deviceIndex),
         idInstallationDevice := some dev.idInstallationDevice,
         commandAction := some "OPEN_STOP_CLOSE",
         commandId := some 96,
         commandParam := some "CLOSE",
         lowlevelCommand := some (some "CH1") }] := rfl

/-- C5: the fixed-width color string format round-trips: for brightness in
0 to 100 and channels in 0 to 255, encoding, decoding by the status-parsing
rule, and encoding again yields the original string. -/
theorem color_roundtrip (a r g b : Nat)
    (ha : a ≤ 100) (hr : r ≤ 255) (hg : g ≤ 255) (hb : b ≤ 255) :
    (let d := decodeColor (encodeColor a r g b)
     encodeColor d.1 d.2.1 d.2.2.1 d.2.2.2) = encodeColor a r g b := by
  rw [decodeColor_encodeColor a r g b (by omega) (by omega) (by omega) (by omega)]

/-- Witness for C5 at brightness 40 and channels 10, 20, 255. -/
theorem color_roundtrip_witness :
    (let d := decodeColor (encodeColor 40 10 20 255)
     encodeColor d.1 d.2.1 d.2.2.1 d.2.2.2) = encodeColor 40 10 20 255 :=
  color_roundtrip 40 10 20 255 (by decide) (by decide) (by decide) (by decide)

/-- C4: with out-of-range brightness the call fails with a ValueError, with
any out-of-range channel it fails with a ValueError, in both cases before
any command is produced; at the boundary values brightness 0 or 100 and
every channel 0 or 255 no error is raised and the COLOR command is
submitted. -/
theorem set_rgb_and_brightness_validation (dev : DeviceData) (sb : Option Int)
    (sr : Option (Int × Int × Int)) (b r g bl : Int) :
    (b < 0 ∨ b > 100 →
      raisesValueError (set_rgb_and_brightness dev sb sr (some (r, g, bl)) (some b)) = true) ∧
    (r < 0 ∨ r > 255 ∨ g < 0 ∨ g > 255 ∨ bl < 0 ∨ bl > 255 →
      raisesValueError (set_rgb_and_brightness dev sb sr (some (r, g, bl)) (some b)) = true) ∧
    ((b = 0 ∨ b = 100) → (r = 0 ∨ r = 255) → (g = 0 ∨ g = 255) → (bl = 0 ∨ bl = 255) →
      set_rgb_and_brightness dev sb sr (some (r, g, bl)) (some b) =
        Except.ok [rgbColorRecord dev b r g bl]) := by
  refine ⟨?_, ?_, ?_⟩
  · intro h
    have hc : 0 > b ∨ b > 100 := by omega
    simp only [set_rgb_and_brightness, if_pos hc, raisesValueError]
  · intro h
    by_cases hb : 0 > b ∨ b > 100
    · simp only [set_rgb_and_brightness, if_pos hb, raisesValueError]
    · have hc : r < 0 ∨ r > 255 ∨ g < 0 ∨ g > 255 ∨ bl < 0 ∨ bl > 255 := h
      simp only [set_rgb_and_brightness, if_neg hb, if_pos hc, raisesValueError]
  · intro h1 h2 h3 h4
    have hb : ¬(0 > b ∨ b > 100) := by omega
    have hc : ¬(r < 0 ∨ r > 255 ∨ g < 0 ∨ g > 255 ∨ bl < 0 ∨ bl > 255) := by omega
    simp only [set_rgb_and_brightness, if_neg hb, if_neg hc]

/-- Witness for C4: brightness 100 with channels 0, 255, 0 submits the
encoded COLOR command; the out-of-range parts are exercised at brightness
-1 and channel 256. -/
theorem set_rgb_and_brightness_validation_witness :
    raisesValueError
        (set_rgb_and_brightness ⟨1, 2, 23, 32⟩ none none (some (0, 255, 0)) (some (-1))) = true ∧
    raisesValueError
        (set_rgb_and_brightness ⟨1, 2, 23, 32⟩ none none (some (256, 255, 0)) (some 50)) = true ∧
    set_rgb_and_brightness ⟨1, 2, 23, 32⟩ none none (some (0, 255, 0)) (some 100) =
      Except.ok [rgbColorRecord ⟨1, 2, 23, 32⟩ 100 0 255 0] :=
  ⟨(set_rgb_and_brightness_validation ⟨1, 2, 23, 32⟩ none none (-1) 0 255 0).1
      (Or.inl (by decide)),
   (set_rgb_and_brightness_validation ⟨1, 2, 23, 32⟩ none none 50 256 255 0).2.1
      (Or.inr (Or.inl (by decide))),
   (set_rgb_and_brightness_validation ⟨1, 2, 23, 32⟩ none none 100 0 255 0).2.2
      (Or.inr rfl) (Or.inl rfl) (Or.inr rfl) (Or.inl rfl)⟩

/-- C6: for both 4-level models (the registry gives model 34 and model 17
their respective maps), brightness inputs 1 and 37 select band 25, 38 and
62 band 50, 63 and 87 band 75, 88 and 100 band 100, each submitting exactly
one LEVEL command carrying that band entry of the model; input 0 invokes
turn_off instead of submitting a level command. -/
theorem white4_set_brightness_bands (dev : DeviceData) (sb : Option Int) :
    create_specific_device 21 34 = SpecificDevice.white4LevelLight brightnessMap34 ∧
    create_specific_device 21 17 = SpecificDevice.white4LevelLight brightnessMap17 ∧
    white4_set_brightness dev brightnessMap34 sb (some 1) =
      Except.ok [white4LevelRecord dev 141 "LEV1" "CH4"] ∧
    white4_set_brightness dev brightnessMap34 sb (some 37) =
      Except.ok [white4LevelRecord dev 141 "LEV1" "CH4"] ∧
    white4_set_brightness dev brightnessMap34 sb (some 38) =
      Except.ok [white4LevelRecord dev 142 "LEV2" "CH3"] ∧
    white4_set_brightness dev brightnessMap34 sb (some 62) =
      Except.ok [white4LevelRecord dev 142 "LEV2" "CH3"] ∧
    white4_set_brightness dev brightnessMap34 sb (some 63) =
      Except.ok [white4LevelRecord dev 143 "LEV3" "CH2"] ∧
    white4_set_brightness dev brightnessMap34 sb (some 87) =
      Except.ok [white4LevelRecord dev 143 "LEV3" "CH2"] ∧
    white4_set_brightness dev brightnessMap34 sb (some 88) =
      Except.ok [white4LevelRecord dev 144 "LEV4" "CH1"] ∧
    white4_set_brightness dev brightnessMap34 sb (some 100) =
      Except.ok [white4LevelRecord dev 144 "LEV4" "CH1"] ∧
    white4_set_brightness dev brightnessMap17 sb (some 1) =
      Except.ok [white4LevelRecord dev 42 "LEV1" "CH4"] ∧
    white4_set_brightness dev brightnessMap17 sb (some 37) =
      Except.ok [white4LevelRecord dev 42 "LEV1" "CH4"] ∧
    white4_set_brightness dev brightnessMap17 sb (some 38) =
      Except.ok [white4LevelRecord dev 43 "LEV2" "CH3"] ∧
    white4_set_brightness dev brightnessMap17 sb (some 62) =
      Except.ok [white4LevelRecord dev 43 "LEV2" "CH3"] ∧
    white4_set_brightness dev brightnessMap17 sb (some 63) =
      Except.ok [white4LevelRecord dev 44 "LEV3" "CH2"] ∧
    white4_set_brightness dev brightnessMap17 sb (some 87) =
      Except.ok [white4LevelRecord dev 44 "LEV3" "CH2"] ∧
    white4_set_brightness dev brightnessMap17 sb (some 88) =
      Except.ok [white4LevelRecord dev 45 "LEV4" "CH1"] ∧
    white4_set_brightness dev brightnessMap17 sb (some 100) =
      Except.ok [white4LevelRecord dev 45 "LEV4" "CH1"] ∧
    white4_set_brightness dev brightnessMap34 sb (some 0) =
      Except.ok (white4_turn_off dev) ∧
    white4_set_brightness dev brightnessMap17 sb (some 0) =
      Except.ok (white4_turn_off dev) := by
  and_intros <;> rfl

/-- C7, evaluated at the two 4-level models: for idDevicemodel 17 turn_off
submits the claimed single POWER OFF record with commandId 41 on CH8, but
for idDevicemodel 34 the source calls _turn_on, so the submitted record has
commandParam ON (with commandId 147 on CH8), contradicting the claim. -/
theorem white4_turn_off_records :
    white4_turn_off ⟨5, 7, 21, 17⟩ =
      [{ commandAction := some "POWER", commandParam := some "OFF",
         deviceCode := some "5", idInstallationDevice := some 7,
         commandId := some 41, lowlevelCommand := some (some "CH8") }] ∧
    white4_turn_off ⟨5, 7, 21, 34⟩ =
      [{ commandAction := some "POWER", commandParam := some "ON",
         deviceCode := some "5", idInstallationDevice := some 7,
         commandId := some 147, lowlevelCommand := some (some "CH8") }] := by
  constructor <;> rfl

/-- C2: the registry is total on untabled pairs: any (idDevicetype,
idDevicemodel) pair outside the six tabled ones resolves to the generic
DaisyDevice, which exposes no control operation, and the resolver cannot
fail since it is a total function. -/
theorem create_specific_device_total (t m : Int)
    (h : ¬((t = 23 ∧ m = 32) ∨ (t = 24 ∧ m = 27) ∨ (t = 21 ∧ m = 34) ∨
           (t = 21 ∧ m = 17) ∨ (t = 21 ∧ m = 20) ∨ (t = 22 ∧ m = 25))) :
    create_specific_device t m = SpecificDevice.generic ∧
    has_control_operations (create_specific_device t m) = false := by
  have e : create_specific_device t m = SpecificDevice.generic := by
    unfold create_specific_device
    split_ifs with h1 h2 h3 h4 h5 h6
    · exact absurd (Or.inl h1) h
    · exact absurd (Or.inr (Or.inl h2)) h
    · exact absurd (Or.inr (Or.inr (Or.inl h3))) h
    · exact absurd (Or.inr (Or.inr (Or.inr (Or.inl h4)))) h
    · exact absurd (Or.inr (Or.inr (Or.inr (Or.inr (Or.inl h5))))) h
    · exact absurd (Or.inr (Or.inr (Or.inr (Or.inr (Or.inr h6))))) h
    · rfl
  exact ⟨e, by rw [e]; rfl⟩

/-- Witness for C2 at the untabled pair (99, 99). -/
theorem create_specific_device_total_witness :
    create_specific_device 99 99 = SpecificDevice.generic ∧
    has_control_operations (create_specific_device 99 99) = false :=
  create_specific_device_total 99 99 (by decide)

/-- Counterexample to C3: the device type 25 with the untabled model 0
resolves to the generic DaisyDevice, not to the 2-state white-light
variant; the type-only fallback the claim describes is commented out in
the source. -/
theorem create_specific_device_no_type_fallback :
    create_specific_device 25 0 = SpecificDevice.generic ∧
    create_specific_device 25 0 ≠ SpecificDevice.whiteLight := by
  constructor
  · rfl
  · intro h
    simp [create_specific_device] at h

/-- C3 amended: when the exact pair is absent from the table there is no
fallback keyed by deviceType alone: every device of type 25, of type 21
with an untabled model, and of type 22 with an untabled model resolves
directly to the generic variant. -/
theorem create_specific_device_untabled_families (m : Int) :
    create_specific_device 25 m = SpecificDevice.generic ∧
    (¬(m = 34 ∨ m = 17 ∨ m = 20) → create_specific_device 21 m = SpecificDevice.generic) ∧
    (m ≠ 25 → create_specific_device 22 m = SpecificDevice.generic) := by
  refine ⟨?_, ?_, ?_⟩
  · unfold create_specific_device
    split_ifs with h1 h2 h3 h4 h5 h6 <;> first | rfl | omega
  · intro h
    unfold create_specific_device
    split_ifs with h1 h2 h3 h4 h5 h6 <;> first | rfl | omega
  · intro h
    unfold create_specific_device
    split_ifs with h1 h2 h3 h4 h5 h6 <;> first | rfl | omega

/-- Witness for the amended C3 at model 0. -/
theorem create_specific_device_untabled_families_witness :
    create_specific_device 25 0 = SpecificDevice.generic ∧
    create_specific_device 21 0 = SpecificDevice.generic ∧
    create_specific_device 22 0 = SpecificDevice.generic :=
  ⟨(create_specific_device_untabled_families 0).1,
   (create_specific_device_untabled_families 0).2.1 (by decide),
   (create_specific_device_untabled_families 0).2.2 (by decide)⟩

/-- C9: the dispatcher posts the batch under the installation vendor
install code with idScenario 0 and isScenario false; a response whose
MessageID is not WS-000 raises carrying the raw response; with ignore_ack
set and an accepted response it returns the success None marker at once,
issuing zero ack queries. -/
theorem feed_the_commands_contract (installation : DaisyInstallation)
    (cmds : List CommandRecord) (ignore_ack : Bool) (resp : FeedResponse)
    (script : List AckResponse) :
    ((feed_the_commands installation cmds ignore_ack resp script).1 =
      { commandsList := cmds, idInstallation := installation.instCode,
        idScenario := 0, isScenario := false }) ∧
    (resp.MessageID ≠ "WS-000" →
      (feed_the_commands installation cmds ignore_ack resp script).2 =
        (FeedResult.raised resp, 0)) ∧
    (ignore_ack = true → resp.MessageID = "WS-000" →
      (feed_the_commands installation cmds ignore_ack resp script).2 =
        (FeedResult.successNone, 0)) := by
  refine ⟨?_, ?_, ?_⟩
  · unfold feed_the_commands
    split_ifs <;> rfl
  · intro h
    simp only [feed_the_commands, if_pos h]
  · intro hi h
    have hn : ¬resp.MessageID ≠ "WS-000" := by simp [h]
    simp only [feed_the_commands, if_neg hn, hi, if_pos trivial]

/-- Witness for C9 at a concrete installation: a rejected response raises,
and an accepted one with ignore_ack set returns success None with no ack
query against a nonempty ack script. -/
theorem feed_the_commands_contract_witness :
    ((feed_the_commands ⟨3, "ABC1"⟩ [] true ⟨"WS-100", "ref"⟩ []).2 =
      (FeedResult.raised ⟨"WS-100", "ref"⟩, 0)) ∧
    ((feed_the_commands ⟨3, "ABC1"⟩ [] true ⟨"WS-000", "ref"⟩
        [⟨"WS-300", "PROC"⟩]).1 =
      { commandsList := [], idInstallation := "ABC1",
        idScenario := 0, isScenario := false }) ∧
    ((feed_the_commands ⟨3, "ABC1"⟩ [] true ⟨"WS-000", "ref"⟩
        [⟨"WS-300", "PROC"⟩]).2 = (FeedResult.successNone, 0)) :=
  ⟨(feed_the_commands_contract ⟨3, "ABC1"⟩ [] true ⟨"WS-100", "ref"⟩ []).2.1 (by decide),
   (feed_the_commands_contract ⟨3, "ABC1"⟩ [] true ⟨"WS-000", "ref"⟩
      [⟨"WS-300", "PROC"⟩]).1,
   (feed_the_commands_contract ⟨3, "ABC1"⟩ [] true ⟨"WS-000", "ref"⟩
      [⟨"WS-300", "PROC"⟩]).2.2 rfl rfl⟩

/-- C10: login failure is atomic: a response whose codEsito is not S makes
login raise with the raw response attached and leaves idAccount and
idSession exactly as they were (still None on a never-logged-in client);
a success-coded response assigns both fields from valRisultato. -/
theorem login_failure_atomic (st : SessionState) (resp : LoginResponse) :
    (resp.codEsito ≠ "S" → login st resp = (st, some resp)) ∧
    (resp.codEsito = "S" →
      login st resp =
        ({ idAccount := some resp.valRisultato.idAccount,
           idSession := some resp.valRisultato.idSession }, none)) := by
  constructor
  · intro h
    simp only [login, if_pos h]
  · intro h
    have hn : ¬resp.codEsito ≠ "S" := by simp [h]
    simp only [login, if_neg hn]

/-- Witness for C10 on a never-logged-in client: a failing response leaves
both fields None, a success response assigns them. -/
theorem login_failure_atomic_witness :
    login ⟨none, none⟩ ⟨"E", ⟨9, "sess"⟩⟩ = (⟨none, none⟩, some ⟨"E", ⟨9, "sess"⟩⟩) ∧
    login ⟨none, none⟩ ⟨"S", ⟨9, "sess"⟩⟩ = (⟨some 9, some "sess"⟩, none) :=
  ⟨(login_failure_atomic ⟨none, none⟩ ⟨"E", ⟨9, "sess"⟩⟩).1 (by decide),
   (login_failure_atomic ⟨none, none⟩ ⟨"S", ⟨9, "sess"⟩⟩).2 rfl⟩

end TelecoDaisy
